import Mathlib

/-!
Verification of the gpustat data-collection and correlation pipeline
(`gpustat.py`).  The Python source is shallowly embedded: every dict is an
insertion-ordered association list, every string operation is a computable
function mirroring the corresponding Python primitive, every external
command result is a field of an explicit `World`, and every uncaught Python
exception is an `Except.error` carrying the exception kind.
-/

namespace Gpustat

/-! ## Python string primitives, modelled over `List Char` -/

/-- Characters stripped by Python `str.strip()` / matched by `\s`. -/
def isSpace (c : Char) : Bool :=
  c == ' ' || c == '\t' || c == '\n' || c == '\r' || c == '\x0b' || c == '\x0c'

/-- Split a character list at every character satisfying `p`
(one-character separators, as in Python `str.split(sep)`): separators are
dropped and the pieces between them are kept, including empty pieces. -/
def splitPred (p : Char → Bool) : List Char → List (List Char)
  | [] => [[]]
  | c :: cs =>
    match splitPred p cs with
    | [] => [[c]]
    | q :: qs => if p c then [] :: q :: qs else (c :: q) :: qs

/-- Python `s.split(sep)` for a one-character separator `sep`. -/
def pySplitOnChar (s : String) (sep : Char) : List String :=
  (splitPred (fun c => c == sep) s.data).map String.mk

/-- Python `s.split()` (split on whitespace runs, dropping empty pieces). -/
def pySplitWs (s : String) : List String :=
  ((splitPred isSpace s.data).filter (fun l => !l.isEmpty)).map String.mk

/-- Split on the two-character separator used by the docker listing
(`container_id<>container_name<>command`). -/
def splitOn2 (a b : Char) : List Char → List (List Char)
  | [] => [[]]
  | [c] => [[c]]
  | c :: d :: rest =>
    if c == a && d == b then
      [] :: splitOn2 a b rest
    else
      match splitOn2 a b (d :: rest) with
      | [] => [[c]]
      | q :: qs => (c :: q) :: qs

/-- Python `s.split(sepTwoChars)` for the `<>` delimiter. -/
def pySplitDelim (s : String) (a b : Char) : List String :=
  (splitOn2 a b s.data).map String.mk

/-- Python `str.strip()`. -/
def trimList (l : List Char) : List Char :=
  ((l.dropWhile isSpace).reverse.dropWhile isSpace).reverse

/-- Python `str.strip()` on a `String`. -/
def pyStrip (s : String) : String := ⟨trimList s.data⟩

/-- Substring test on character lists: `containsSub pat hay` iff `pat`
occurs contiguously in `hay` (Python `pat in hay`). -/
def containsSub (pat : List Char) : List Char → Bool
  | [] => pat.isEmpty
  | c :: cs => pat.isPrefixOf (c :: cs) || containsSub pat cs

/-- Python `pat in s` for strings. -/
def strContains (s pat : String) : Bool := containsSub pat.data s.data

/-- Digit-string value; `none` when the list is empty or holds a
non-digit character. -/
def digitsToNat (acc : Nat) : List Char → Option Nat
  | [] => some acc
  | c :: cs => if c.isDigit then digitsToNat (acc * 10 + (c.toNat - '0'.toNat)) cs else none

/-- Python `int(s)`: strip whitespace, optional sign, decimal digits;
`none` models the `ValueError` raised on any other shape. -/
def pyToInt (s : String) : Option Int :=
  match trimList s.data with
  | [] => none
  | '-' :: ds => (digitsToNat 0 ds).map (fun n => -(n : Int))
  | '+' :: ds => (digitsToNat 0 ds).map (fun n => (n : Int))
  | ds => (digitsToNat 0 ds).map (fun n => (n : Int))

/-- Python format `{:>w}` on a string (pad on the left to width `w`). -/
def padL (w : Nat) (s : String) : String :=
  ⟨List.replicate (w - s.data.length) ' ' ++ s.data⟩

/-- Python format `{:w}` on a string (pad on the right to width `w`). -/
def padR (w : Nat) (s : String) : String :=
  ⟨s.data ++ List.replicate (w - s.data.length) ' '⟩

/-! ## Insertion-ordered dictionaries as association lists -/

/-- Dict read: `none` models a Python `KeyError`. -/
def alGet {α β : Type} [DecidableEq α] (d : List (α × β)) (k : α) : Option β :=
  (d.find? (fun kv => decide (kv.1 = k))).map Prod.snd

/-- Dict assignment `d[k] = v`: replace in place when the key is present
(keeping its position), otherwise append, exactly as an insertion-ordered
Python dict behaves. -/
def alSet {α β : Type} [DecidableEq α] (d : List (α × β)) (k : α) (v : β) : List (α × β) :=
  if (d.find? (fun kv => decide (kv.1 = k))).isSome then
    d.map (fun kv => if kv.1 = k then (k, v) else kv)
  else
    d ++ [(k, v)]

/-! ## ANSI color table (class ANSIColors) -/

namespace ANSIColors

def RESET : String := "\x1b[0m"
def WHITE : String := "\x1b[1m"
def RED : String := "\x1b[0;31m"
def GREEN : String := "\x1b[0;32m"
def YELLOW : String := "\x1b[0;33m"
def BLUE : String := "\x1b[0;34m"
def MAGENTA : String := "\x1b[0;35m"
def CYAN : String := "\x1b[0;36m"
def GRAY : String := "\x1b[1;30m"
def BOLD_RED : String := "\x1b[1;31m"
def BOLD_GREEN : String := "\x1b[1;32m"
def BOLD_YELLOW : String := "\x1b[1;33m"

def wrap (color msg : String) : String := color ++ msg ++ RESET

end ANSIColors

/-! ## The device and process data model

A record (Python dict keyed by strings) is an insertion-ordered
association list; a value is `Option String`, `none` standing for the
Python `None` that the unsupported-marker normalization writes. -/

/-- One dict built from a query line (device entry or process entry). -/
abbrev Entry := List (String × Option String)

/-- `GPUStat`: the normalized per-device record plus its attached
process list (`self.entry` and `self.processes`). -/
structure GPUStat where
  entry : Entry
  processes : List Entry
  deriving Repr, DecidableEq

/-- The fixed device-query column list of `GPUStatCollection.new_query`. -/
def gpu_query_columns : List String :=
  ["index", "uuid", "name", "temperature.gpu", "utilization.gpu", "memory.used", "memory.total"]

/-- One device line: split on commas, strip every field, zip against the
fixed column list (`zip` truncates at the shorter list, exactly as the
Python `zip` feeding the dict comprehension does). -/
def parse_gpu_line (line : String) : List (String × String) :=
  List.zip gpu_query_columns ((pySplitOnChar line ',').map pyStrip)

/-- Unsupported-marker normalization of one raw field value
(the body of the `for k in self.entry.keys()` loop in `GPUStat.__init__`). -/
def markerNormalize (v : String) : Option String :=
  if strContains v "Not Supported" then none else some v

/-- `GPUStat.__init__`: normalize every field containing the
`"Not Supported"` marker to `None`, then read `entry["utilization.gpu"]`
(an unconditional dict read: a missing key raises `KeyError`, modelled as
`Except.error`) and replace it with `"??"` when it is `None`.  The keys of
the input dict are pairwise distinct (they come from zipping the fixed
column list), so the mutation loop is a pointwise map. -/
def mkGPUStat (d : List (String × String)) : Except String GPUStat :=
  let e1 : Entry := d.map (fun kv => (kv.1, markerNormalize kv.2))
  match alGet e1 "utilization.gpu" with
  | none => .error "KeyError: utilization.gpu"
  | some u =>
    let e2 : Entry :=
      if u = none then
        e1.map (fun kv => if kv.1 = "utilization.gpu" then (kv.1, some "??") else kv)
      else e1
    .ok { entry := e2, processes := [] }

/-- The device-query text parser of `new_query`: split the command output
on newlines, skip empty lines, build one `GPUStat` per line; any
constructor error propagates (there is no handler around the loop). -/
def parse_devices_aux : List String → Except String (List GPUStat)
  | [] => .ok []
  | line :: rest =>
    if line = "" then parse_devices_aux rest
    else
      match mkGPUStat (parse_gpu_line line) with
      | .error e => .error e
      | .ok g =>
        match parse_devices_aux rest with
        | .error e => .error e
        | .ok gs => .ok (g :: gs)

/-- Parse the whole device-query output into the ordered device list. -/
def parse_devices (t : String) : Except String (List GPUStat) :=
  parse_devices_aux (pySplitOnChar t '\n')

/-! ## Rendering (`GPUStat.print_to`) -/

/-- Dict read raising `KeyError` (`self.entry[k]` / `p[k]`). -/
def pyGet (e : Entry) (k : String) : Except String (Option String) :=
  match alGet e k with
  | none => .error ("KeyError: " ++ k)
  | some v => .ok v

/-- Python `int(v)` on an entry value: `None` raises `TypeError`, a
non-numeric string raises `ValueError`. -/
def pyIntV : Option String → Except String Int
  | none => .error "TypeError: int() argument is None"
  | some s =>
    match pyToInt s with
    | some n => .ok n
    | none => .error ("ValueError: invalid literal for int() with base 10: " ++ s)

/-- Python f-string piece `{v}` with no format spec: `None` prints as
the text `None`. -/
def pyStrV (v : Option String) : String := v.getD "None"

/-- Python f-string piece `{v:>w}`: formatting `None` with a width spec
raises `TypeError`. -/
def pyFormatR (v : Option String) (w : Nat) : Except String String :=
  match v with
  | none => .error "TypeError: unsupported format string passed to NoneType.__format__"
  | some s => .ok (padL w s)

/-- Python f-string piece `{v:w}` (left-justified). -/
def pyFormatL (v : Option String) (w : Nat) : Except String String :=
  match v with
  | none => .error "TypeError: unsupported format string passed to NoneType.__format__"
  | some s => .ok (padR w s)

/-- Temperature color choice of `print_to`:
`CTemp = RED`, escalated to `BOLD_RED` when `int(temp) >= 50`. -/
def ctemp_color (t : Int) : String :=
  if 50 ≤ t then ANSIColors.BOLD_RED else ANSIColors.RED

/-- Utilization color choice of `print_to`:
`CUtil = GREEN`, escalated to `BOLD_GREEN` when `int(util) >= 30`. -/
def cutil_color (u : Int) : String :=
  if 30 ≤ u then ANSIColors.BOLD_GREEN else ANSIColors.GREEN

/-- The string between the temperature digits and `C` (an apostrophe). -/
def degC : String := String.mk ['\x27', 'C']

/-- `_repr` helper of `print_to`: `None` prints as `none_value`. -/
def pyRepr (v : Option String) (noneValue : String) : String := v.getD noneValue

/-- `process_repr` helper of `print_to`, one per-process fragment. -/
def process_repr (c0 c1 cuser cmemp : String) (show_cmd show_user show_pid : Bool)
    (p : Entry) : Except String String := do
  let r1 ←
    if !show_cmd || show_user then do
      let uv ← pyGet p "user"
      pure (cuser ++ pyRepr uv "--" ++ c0)
    else pure ""
  let r2 ←
    if show_cmd then do
      let pidv ← pyGet p "pid"
      let cv := (alGet p "comm").getD pidv
      pure (r1 ++ (if r1 = "" then "" else ":") ++ c1 ++ pyRepr cv "--" ++ c0)
    else pure r1
  let r3 ←
    if show_pid then do
      let pidv ← pyGet p "pid"
      pure (r2 ++ "/" ++ pyRepr pidv "--")
    else pure r2
  let umv ← pyGet p "used_memory"
  pure (r3 ++ "(" ++ cmemp ++ pyRepr umv "?" ++ "M" ++ c0 ++ ")")

/-- `GPUStat.print_to`: choose the colors first (this performs
`int(entry[...])` on the temperature and the utilization before anything
is printed), then build the one-line display and append the per-process
fragments.  The `%(name)s` color placeholders of the source are inlined
with the chosen color strings; with `with_colors = false` every color is
the empty string, exactly as the zeroing loop does. -/
def print_to (g : GPUStat) (with_colors show_cmd show_user show_pid : Bool)
    (gpuname_width : Nat) : Except String String := do
  let tv ← pyGet g.entry "temperature.gpu"
  let t ← pyIntV tv
  let uv ← pyGet g.entry "utilization.gpu"
  let u ← pyIntV uv
  let c0 := if with_colors then ANSIColors.RESET else ""
  let c1 := if with_colors then ANSIColors.CYAN else ""
  let cname := if with_colors then ANSIColors.BLUE else ""
  let ctemp := if with_colors then ctemp_color t else ""
  let cmemu := if with_colors then ANSIColors.BOLD_YELLOW else ""
  let cmemt := if with_colors then ANSIColors.YELLOW else ""
  let cmemp := if with_colors then ANSIColors.YELLOW else ""
  let cuser := if with_colors then ANSIColors.GRAY else ""
  let cutil := if with_colors then cutil_color u else ""
  let idxv ← pyGet g.entry "index"
  let namev ← pyGet g.entry "name"
  let namef ← pyFormatL namev gpuname_width
  let tempf ← pyFormatR tv 3
  let utilf ← pyFormatR uv 3
  let muv ← pyGet g.entry "memory.used"
  let muf ← pyFormatR muv 5
  let mtv ← pyGet g.entry "memory.total"
  let mtf ← pyFormatR mtv 5
  let gpu_index := c1 ++ "[" ++ pyStrV idxv ++ "]" ++ c0
  let gpu_name := cname ++ namef ++ c0
  let gpu_temp := ctemp ++ tempf ++ degC ++ c0
  let gpu_util := cutil ++ utilf ++ " %" ++ c0
  let gpu_mem_used := cmemu ++ muf ++ c0
  let gpu_mem_total := cmemt ++ mtf ++ c0 ++ " MB"
  let reps := gpu_index ++ " " ++ gpu_name ++ " |" ++ gpu_temp ++ ", " ++
    gpu_util ++ " | " ++ gpu_mem_used ++ " / " ++ gpu_mem_total ++ " |"
  let frags ← g.processes.mapM (process_repr c0 c1 cuser cmemp show_cmd show_user show_pid)
  pure (frags.foldl (fun acc f => acc ++ " " ++ f) reps)

/-! ## The process pipeline (`GPUStatCollection.running_processes`)

External commands are abstracted by a `World`: each field is the result
the corresponding `exec_command` / `check_output` call would produce
(`Except.error` = the command raised `CalledProcessError`; the two
best-effort version probes are `Option String`, `none` = the probe
failed and `exec_command(_, ignore_exceptions=True)` returned `None`). -/

/-- One pid-to-identity value of `pid_map` (`{"user": ..., "comm": ...}`). -/
structure PInfo where
  user : String
  comm : String
  deriving Repr, DecidableEq

/-- `pid_map`: insertion-ordered dict from integer pid to an identity
dict.  The value type is `Option PInfo` so that the dead
`pid_map[pid] is None` test of step 3 can be modelled as written; the
pipeline only ever stores `some` values. -/
abbrev PidMap := List (Int × Option PInfo)

/-- The environment of one query cycle: results of the external
commands the collection builder runs (each string is the already-stripped
stdout `exec_command` returns). -/
structure World where
  dev_query : Except String String
  proc_query : Except String String
  ps_output : Except String String
  lxc_version : Option String
  docker_version : Option String
  docker_ps : Except String String
  cgroup : Int → Except Unit String

/-- Python truthiness of an `exec_command(..., ignore_exceptions=True)`
result (`None` and the empty string are falsy). -/
def isTruthy : Option String → Bool
  | none => false
  | some s => !(s == "")

/-- The fixed compute-process column list. -/
def proc_query_columns : List String := ["gpu_uuid", "pid", "used_memory"]

/-- One compute-process line: split on commas, strip, zip against the
fixed column list; all values start out as present strings. -/
def parse_proc_line (line : String) : Entry :=
  (List.zip proc_query_columns ((pySplitOnChar line ',').map pyStrip)).map
    (fun kv => (kv.1, some kv.2))

/-- Step 1 of `running_processes`: one entry per non-empty output line. -/
def parse_proc_entries (t : String) : List Entry :=
  ((pySplitOnChar t '\n').filter (fun l => !(l == ""))).map parse_proc_line

/-- The `pid_map` dict comprehension: every entry whose `pid` field does
not contain the unsupported marker contributes
`int(e["pid"]) -> {"user": "UNKNOWN", "comm": ""}`.  A missing `pid` key
raises `KeyError`, a `None` value raises `TypeError`, a non-numeric pid
raises `ValueError`; all three propagate. -/
def build_pid_map_aux (acc : PidMap) : List Entry → Except String PidMap
  | [] => .ok acc
  | e :: rest =>
    match alGet e "pid" with
    | none => .error "KeyError: pid"
    | some none => .error "TypeError: argument of type NoneType is not iterable"
    | some (some s) =>
      if strContains s "Not Supported" then build_pid_map_aux acc rest
      else
        match pyToInt s with
        | none => .error ("ValueError: invalid literal for int() with base 10: " ++ s)
        | some n => build_pid_map_aux (alSet acc n (some ⟨"UNKNOWN", ""⟩)) rest

/-- Build `pid_map` from the raw process entries. -/
def build_pid_map (es : List Entry) : Except String PidMap := build_pid_map_aux [] es

/-- Step 2 of `running_processes`: walk the `ps` output, skip empty lines
and the header (any line containing `PID`), unpack exactly three
whitespace-separated fields (`ValueError` otherwise) and overwrite
`pid_map[int(pid)]`. -/
def ps_update_aux (pm : PidMap) : List String → Except String PidMap
  | [] => .ok pm
  | line :: rest =>
    if line = "" || strContains line "PID" then ps_update_aux pm rest
    else
      match pySplitWs line with
      | [pids, user, comm] =>
        match pyToInt pids with
        | none => .error ("ValueError: invalid literal for int() with base 10: " ++ pids)
        | some n => ps_update_aux (alSet pm n (some ⟨user, comm⟩)) rest
      | _ => .error "ValueError: not enough values to unpack"

/-- Apply the OS process listing to `pid_map`. -/
def ps_update (pm : PidMap) (t : String) : Except String PidMap :=
  ps_update_aux pm (pySplitOnChar t '\n')

/-- Parse the docker listing into `docker_info_dict`: each line must
split on `<>` into exactly three fields (`ValueError` otherwise — this
error is NOT caught in the source). -/
def docker_table_aux (acc : List (String × String × String)) :
    List String → Except String (List (String × String × String))
  | [] => .ok acc
  | item :: rest =>
    match pySplitDelim item '<' '>' with
    | [cid, cname, ccmd] => docker_table_aux (alSet acc cid (cname, ccmd)) rest
    | _ => .error "ValueError: not enough values to unpack"

/-- `docker_info_dict` from the docker listing output. -/
def docker_table (t : String) : Except String (List (String × String × String)) :=
  docker_table_aux [] (pySplitOnChar t '\n')

/-- The whitespace-normalized field split applied to one cgroup lookup
output line (`re.sub(r"\s+", " ", info)` then split-and-strip). -/
def collapseWsAux (prev : Bool) : List Char → List Char
  | [] => []
  | c :: cs =>
    if isSpace c then
      if prev then collapseWsAux true cs else ' ' :: collapseWsAux true cs
    else c :: collapseWsAux false cs

/-- Fields of one cgroup lookup line after whitespace normalization. -/
def cg_fields (info : String) : List String :=
  (pySplitOnChar ⟨collapseWsAux false info.data⟩ ' ').map pyStrip

/-- Last element of a split (Python `[-1]`; splits are never empty). -/
def lastD (l : List String) : String := l.getLast?.getD ""

/-- First element of a split (Python `[0]`; splits are never empty). -/
def headD (l : List String) : String := l.headD ""

/-- The container-name heuristic `cgroup.split(",")[0].split("/")[-1]`. -/
def container_tail (cgroupS : String) : String :=
  lastD (pySplitOnChar (headD (pySplitOnChar cgroupS ',')) '/')

/-- The body of the per-pid container-resolution loop, for one pid: run
the cgroup lookup command, normalize and unpack its output, and update
the identity according to the lxc / docker branch.  The whole body sits
inside `try ... except Exception: pass`, so every failure — the command
raising, an unpack of the wrong shape, or a `None` identity value —
leaves the stored identity unchanged. -/
def resolveOne (lxc docker : Option String) (dd : List (String × String × String))
    (cg : Int → Except Unit String) (pid : Int) (v : Option PInfo) : Option PInfo :=
  match cg pid with
  | .error _ => v
  | .ok info =>
    match cg_fields info, v with
    | [_, _, cgroupS], some pi =>
      if isTruthy lxc && strContains cgroupS "lxc" then
        some { pi with user := pi.user ++ "/" ++ container_tail cgroupS }
      else if isTruthy docker && strContains cgroupS "docker" then
        match alGet dd (container_tail cgroupS) with
        | some nc => some { pi with user := nc.1 }
        | none => some { pi with user := "UNKNOWN" }
      else some pi
    | _, _ => v

/-- Step 2.1 of `running_processes`: the `for pid in pid_map` loop.  Each
iteration touches only its own key, so the loop is a pointwise map. -/
def resolveContainers (lxc docker : Option String) (dd : List (String × String × String))
    (cg : Int → Except Unit String) (pm : PidMap) : PidMap :=
  pm.map (fun p => (p.1, resolveOne lxc docker dd cg p.1 p.2))

/-- Step 3 of `running_processes`, for one entry: a marker pid blanks the
whole entry (`user`, `comm`, `pid`, `used_memory` all set to `None`) and
keeps it; otherwise the pid is resolved in `pid_map` — a `None` value
would remove the entry (`.ok none`), any other value is merged in via
`process_entry.update`. -/
def step3_one (pm : PidMap) (e : Entry) : Except String (Option Entry) :=
  match alGet e "pid" with
  | none => .error "KeyError: pid"
  | some none => .error "TypeError: argument of type NoneType is not iterable"
  | some (some s) =>
    if strContains s "Not Supported" then
      .ok (some (alSet (alSet (alSet (alSet e "user" none) "comm" none) "pid" none)
        "used_memory" none))
    else
      match pyToInt s with
      | none => .error ("ValueError: invalid literal for int() with base 10: " ++ s)
      | some n =>
        match alGet pm n with
        | none => .error "KeyError: pid_map"
        | some none => .ok none
        | some (some pi) =>
          .ok (some (alSet (alSet e "user" (some pi.user)) "comm" (some pi.comm)))

/-- Step 3 over the whole entry list (iteration over a copy, removal from
the original: each entry is kept, updated or dropped independently). -/
def step3 (pm : PidMap) : List Entry → Except String (List Entry)
  | [] => .ok []
  | e :: rest =>
    match step3_one pm e with
    | .error err => .error err
    | .ok r =>
      match step3 pm rest with
      | .error err => .error err
      | .ok rs => .ok (match r with | some e2 => e2 :: rs | none => rs)

/-- Step 2 guard of `running_processes`: the OS listing command is run
only when `pid_map` is non-empty; its failure propagates (plain
`exec_command`). -/
def ps_stage (w : World) (pm0 : PidMap) : Except String PidMap :=
  if pm0.isEmpty then .ok pm0 else
    match w.ps_output with
    | .error e => .error e
    | .ok pst => ps_update pm0 pst

/-- Docker part of step 2.1: when the docker version probe is truthy,
run the container listing (plain `exec_command`: failure propagates) and
parse `docker_info_dict`; otherwise the dict is never built nor used. -/
def docker_stage (w : World) : Except String (List (String × String × String)) :=
  if isTruthy w.docker_version then
    match w.docker_ps with
    | .error e => .error e
    | .ok dt => docker_table dt
  else .ok []

/-- `GPUStatCollection.running_processes`: query the compute processes
(failure propagates — only `exec_command` calls with
`ignore_exceptions=True` are best-effort), build and enrich `pid_map`,
then post-process the entries. -/
def running_processes (w : World) : Except String (List Entry) :=
  match w.proc_query with
  | .error e => .error e
  | .ok t =>
    let entries := parse_proc_entries t
    match build_pid_map entries with
    | .error e => .error e
    | .ok pm0 =>
      match ps_stage w pm0 with
      | .error e => .error e
      | .ok pm1 =>
        match docker_stage w with
        | .error e => .error e
        | .ok dinfo =>
          let pm2 :=
            if isTruthy w.lxc_version || isTruthy w.docker_version then
              resolveContainers w.lxc_version w.docker_version dinfo w.cgroup pm1
            else pm1
          step3 pm2 entries

/-! ## The collection builder -/

/-- The ordered device dict of a collection, keyed by
`entry["uuid"]` (the key itself may be `None` after normalization). -/
abbrev GpuDict := List (Option String × GPUStat)

/-- Build `self.gpus` from the device list (`self.gpus[g.uuid] = g`;
the `uuid` property raises `KeyError` when the key is missing). -/
def mkGpusDict_aux (acc : GpuDict) : List GPUStat → Except String GpuDict
  | [] => .ok acc
  | g :: rest =>
    match alGet g.entry "uuid" with
    | none => .error "KeyError: uuid"
    | some k => mkGpusDict_aux (alSet acc k g) rest

/-- The device dict of `GPUStatCollection.__init__`. -/
def mkGpusDict (gl : List GPUStat) : Except String GpuDict := mkGpusDict_aux [] gl

/-- Append a process entry to the device stored under key `k`. -/
def attach_process (gpus : GpuDict) (k : Option String) (p : Entry) : GpuDict :=
  gpus.map (fun kv =>
    if kv.1 = k then (kv.1, { entry := kv.2.entry, processes := kv.2.processes ++ [p] })
    else kv)

/-- `GPUStatCollection.update_process_information`, modelled exactly as
written: the `try` covers only `g = self.gpus[p["gpu_uuid"]]`, while
`g.add_process(p)` stands OUTSIDE the handler.  The local variable `g`
therefore survives a failed lookup: on a `KeyError` (unknown device id or
missing `gpu_uuid` key) the entry is appended to the device bound by the
last successful lookup, and when no lookup has succeeded yet the
reference to `g` raises `UnboundLocalError`. -/
def update_process_information_aux (gpus : GpuDict) (lastG : Option (Option String)) :
    List Entry → Except String GpuDict
  | [] => .ok gpus
  | p :: rest =>
    let found : Option (Option String) :=
      match alGet p "gpu_uuid" with
      | none => none
      | some k => if (alGet gpus k).isSome then some k else none
    match found with
    | some k => update_process_information_aux (attach_process gpus k p) (some k) rest
    | none =>
      match lastG with
      | none => .error "UnboundLocalError: local variable g referenced before assignment"
      | some k => update_process_information_aux (attach_process gpus k p) lastG rest

/-- Attach the process entries onto the device dict. -/
def update_process_information (gpus : GpuDict) (procs : List Entry) :
    Except String GpuDict :=
  update_process_information_aux gpus none procs

/-- `GPUStatCollection.new_query` followed by `__init__`: device query
(failure propagates and is the documented fatal path), device parsing,
device dict construction, then process collection and attachment. -/
def new_query (w : World) : Except String GpuDict :=
  match w.dev_query with
  | .error e => .error e
  | .ok dt =>
    match parse_devices dt with
    | .error e => .error e
    | .ok gl =>
      match mkGpusDict gl with
      | .error e => .error e
      | .ok gpus =>
        match running_processes w with
        | .error e => .error e
        | .ok procs => update_process_information gpus procs

/-! ## Concrete fixtures used by the claim theorems -/

/-- A fully-populated normalized device entry (uuid `GPU-aaa`). -/
def devEntryA : Entry :=
  [("index", some "0"), ("uuid", some "GPU-aaa"), ("name", some "Tesla K80"),
   ("temperature.gpu", some "65"), ("utilization.gpu", some "42"),
   ("memory.used", some "1024"), ("memory.total", some "12000")]

/-- A process entry whose device id matches `devEntryA`. -/
def pEntryKnown : Entry :=
  [("gpu_uuid", some "GPU-aaa"), ("pid", some "11"), ("used_memory", some "100")]

/-- A process entry whose device id matches no device in the snapshot. -/
def pEntryUnknown : Entry :=
  [("gpu_uuid", some "GPU-zzz"), ("pid", some "22"), ("used_memory", some "200")]

/-- A compute-process entry parsed from a marker-pid row (Scenario D). -/
def entryD : Entry :=
  [("gpu_uuid", some "GPU-aaa"), ("pid", some "Not Supported"),
   ("used_memory", some "Not Supported")]

/-- A world in which one compute process (pid 1234) is reported, the OS
listing output holds no line for it (header only), and no container
runtime is installed. -/
def worldPsMissing : World where
  dev_query := .ok "0, GPU-aaa, Tesla K80, 65, 42, 1024, 12000"
  proc_query := .ok "GPU-aaa, 1234, 256"
  ps_output := .ok "  PID USER     COMMAND"
  lxc_version := none
  docker_version := none
  docker_ps := .error "docker not installed"
  cgroup := fun _ => .error ()

/-- A world in which every query succeeds except the docker container
listing command, while the docker version probe reports docker as
installed. -/
def worldDockerPsFails : World where
  dev_query := .ok "0, GPU-aaa, Tesla K80, 65, 42, 1024, 12000"
  proc_query := .ok "GPU-aaa, 1234, 256"
  ps_output := .ok "  PID USER     COMMAND\n 1234 alice    python"
  lxc_version := none
  docker_version := some "Docker version 20.10.7, build f0df350"
  docker_ps := .error "CalledProcessError: docker ps"
  cgroup := fun _ => .error ()

/-- A cgroup lookup command that fails for every pid. -/
def cgAllFail : Int → Except Unit String := fun _ => .error ()

/-- Every value stored in a `pid_map` is non-null.  The pipeline
maintains this invariant from the dict comprehension on. -/
def AllSome (pm : PidMap) : Prop := ∀ kv ∈ pm, kv.2 ≠ none

end Gpustat

namespace Gpustat

/-! ## Sanity examples for the string primitives (concrete evaluation) -/

example : pySplitOnChar "a, b,c" ',' = ["a", " b", "c"] := rfl

example : pySplitOnChar "" ',' = [""] := rfl

example : pyStrip "  GPU-aaa " = "GPU-aaa" := rfl

example : strContains "xx Not Supported yy" "Not Supported" = true := rfl

example : strContains "65" "Not Supported" = false := rfl

example : pyToInt "1234" = some 1234 := rfl

example : pyToInt "??" = none := rfl

example : pySplitWs " 1234 alice    python " = ["1234", "alice", "python"] := rfl

example : pySplitDelim "id1<>name1<>cmd one" '<' '>' = ["id1", "name1", "cmd one"] := rfl

example : padL 5 "256" = "  256" := rfl

/-! ## Sanity examples for the pipeline (concrete evaluation) -/

example :
    parse_proc_entries "GPU-aaa, 1234, 256" =
      [[("gpu_uuid", some "GPU-aaa"), ("pid", some "1234"), ("used_memory", some "256")]] := rfl

example :
    build_pid_map [[("gpu_uuid", some "GPU-aaa"), ("pid", some "1234"),
      ("used_memory", some "256")]] = .ok [(1234, some ⟨"UNKNOWN", ""⟩)] := rfl

example :
    ps_update [(1234, some ⟨"UNKNOWN", ""⟩)] "  PID USER     COMMAND\n 1234 alice    python" =
      .ok [(1234, some ⟨"alice", "python"⟩)] := rfl

example :
    running_processes
      { dev_query := .ok ""
        proc_query := .ok "GPU-aaa, 1234, 256"
        ps_output := .ok "  PID USER     COMMAND\n 1234 alice    python"
        lxc_version := none
        docker_version := none
        docker_ps := .error "docker not installed"
        cgroup := fun _ => .error () } =
      .ok [[("gpu_uuid", some "GPU-aaa"), ("pid", some "1234"), ("used_memory", some "256"),
        ("user", some "alice"), ("comm", some "python")]] := rfl

example :
    mkGPUStat (parse_gpu_line "0, GPU-aaa, Tesla K80, 65, 42, 1024, 12000") =
      .ok ⟨[("index", some "0"), ("uuid", some "GPU-aaa"), ("name", some "Tesla K80"),
          ("temperature.gpu", some "65"), ("utilization.gpu", some "42"),
          ("memory.used", some "1024"), ("memory.total", some "12000")], []⟩ := rfl

example :
    mkGPUStat (parse_gpu_line "0, GPU-aaa, Tesla K80, Not Supported, Not Supported, 0, 12000") =
      .ok ⟨[("index", some "0"), ("uuid", some "GPU-aaa"), ("name", some "Tesla K80"),
          ("temperature.gpu", none), ("utilization.gpu", some "??"),
          ("memory.used", some "0"), ("memory.total", some "12000")], []⟩ := rfl

example :
    print_to ⟨[("index", some "0"), ("uuid", some "GPU-aaa"),
        ("name", some "K80"), ("temperature.gpu", some "65"), ("utilization.gpu", some "42"),
        ("memory.used", some "1024"), ("memory.total", some "12000")], []⟩
      false false false false 4 =
      .ok ("[0] K80  | 65" ++ degC ++ ",  42 % |  1024 / 12000 MB |") := rfl

/-! ## Claim theorems -/

/-- C1: the claim states that a process entry whose device unique id
matches no device is silently skipped and attached to no device.  The
code violates this: `g.add_process(p)` stands outside the
`try/except KeyError` handler, so after a failed lookup the entry is
appended to the device bound by the last successful lookup — here
`pEntryUnknown` (device id `GPU-zzz`) ends up attached to the device
with uuid `GPU-aaa` — and when the failing entry comes first, the
reference to the unbound local `g` raises `UnboundLocalError` instead of
being silent. -/
theorem c1_unknown_device_attachment :
    update_process_information [(some "GPU-aaa", ⟨devEntryA, []⟩)] [pEntryKnown, pEntryUnknown]
      = .ok [(some "GPU-aaa", ⟨devEntryA, [pEntryKnown, pEntryUnknown]⟩)]
    ∧ alGet pEntryUnknown "gpu_uuid" = some (some "GPU-zzz")
    ∧ (some "GPU-zzz" : Option String) ≠ some "GPU-aaa"
    ∧ update_process_information [(some "GPU-aaa", ⟨devEntryA, []⟩)] [pEntryUnknown]
      = .error "UnboundLocalError: local variable g referenced before assignment" :=
  ⟨rfl, rfl, by decide, rfl⟩

/-- C2 counterexample: pid 1234 has no line in the OS process-listing
output, yet the process entry is NOT removed from the returned sequence —
it is kept with the default identity `user = UNKNOWN`, `comm = empty` —
because the `pid_map` comprehension initializes every pid to a non-null
identity dict, making the `pid_map[pid] is None` removal branch
unreachable.  The claim states the entry is removed. -/
theorem c2_counterexample :
    running_processes worldPsMissing =
      .ok [[("gpu_uuid", some "GPU-aaa"), ("pid", some "1234"), ("used_memory", some "256"),
        ("user", some "UNKNOWN"), ("comm", some "")]]
    ∧ new_query worldPsMissing =
      .ok [(some "GPU-aaa", ⟨devEntryA,
        [[("gpu_uuid", some "GPU-aaa"), ("pid", some "1234"), ("used_memory", some "256"),
          ("user", some "UNKNOWN"), ("comm", some "")]]⟩)] :=
  ⟨rfl, rfl⟩

/-- C3: the claim states that rendering a device record whose
temperature, utilization or memory carried the unsupported marker
succeeds without numeric comparison against the marker.  The code
violates this: `print_to` computes `int(entry["temperature.gpu"])` and
`int(entry["utilization.gpu"])` for the color thresholds, so an absent
temperature raises `TypeError`, an absent utilization (already replaced
by the `"??"` placeholder) raises `ValueError`, and an absent memory
field raises `TypeError` when width-formatted; no `"???"` output is ever
produced for device fields. -/
theorem c3_render_crashes :
    (mkGPUStat (parse_gpu_line "0, GPU-aaa, Tesla K80, Not Supported, Not Supported, 0, 12000")).bind
        (fun g => print_to g true false false false 16)
      = .error "TypeError: int() argument is None"
    ∧ (mkGPUStat (parse_gpu_line "0, GPU-aaa, Tesla K80, 65, Not Supported, 0, 12000")).bind
        (fun g => print_to g true false false false 16)
      = .error "ValueError: invalid literal for int() with base 10: ??"
    ∧ (mkGPUStat (parse_gpu_line "0, GPU-aaa, Tesla K80, 65, 42, Not Supported, 12000")).bind
        (fun g => print_to g true false false false 16)
      = .error "TypeError: unsupported format string passed to NoneType.__format__" :=
  ⟨rfl, rfl, rfl⟩

/-- C4 counterexample: the claim states that only device-query failure is
fatal and that container-runtime listing failures are absorbed.  In this
world the device query succeeds and only the docker container listing
command fails (docker itself is detected as installed), yet the whole
snapshot construction fails, because `docker ps` is run through a plain
`exec_command` with no `ignore_exceptions`. -/
theorem c4_counterexample :
    worldDockerPsFails.dev_query = .ok "0, GPU-aaa, Tesla K80, 65, 42, 1024, 12000"
    ∧ new_query worldDockerPsFails = .error "CalledProcessError: docker ps" :=
  ⟨rfl, rfl⟩

/-- C5: per-pid container resolution is failure-isolated: when the
cgroup lookup command for pid `k` fails — or returns output that does
not unpack into exactly three fields — that pid's stored identity is
returned unchanged (the `try/except` swallows the error), and the whole
loop is a pointwise map, so every other pid is resolved by its own
independent `resolveOne` run; no per-pid failure can abort the loop or
the snapshot construction (the resolver is a total function). -/
theorem c5_cgroup_failure_swallowed (lxc docker : Option String)
    (dd : List (String × String × String)) (cg : Int → Except Unit String)
    (pm : PidMap) (k : Int) (v : Option PInfo) (info : String)
    (h : cg k = .error () ∨ (cg k = .ok info ∧ (cg_fields info).length ≠ 3)) :
    resolveOne lxc docker dd cg k v = v
    ∧ resolveContainers lxc docker dd cg pm =
        pm.map (fun p => (p.1, resolveOne lxc docker dd cg p.1 p.2)) := by
  refine ⟨?_, rfl⟩
  rcases h with h | ⟨h, hlen⟩
  · simp [resolveOne, h]
  · rcases hf : cg_fields info with _ | ⟨a, _ | ⟨b, _ | ⟨c, _ | ⟨d, t⟩⟩⟩⟩ <;>
      rcases v with _ | pi <;>
      simp_all [resolveOne]

/-- C5 witness: a lookup command failing for every pid leaves the
identity of pid 7 unchanged while the loop still maps every pid through
its own resolution. -/
theorem c5_cgroup_failure_swallowed_witness :
    (cgAllFail 7 = .error () ∨ (cgAllFail 7 = .ok "" ∧ (cg_fields "").length ≠ 3))
    ∧ resolveOne (some "lxc-info version 3.0") none [] cgAllFail 7 (some ⟨"alice", ""⟩)
        = some ⟨"alice", ""⟩
    ∧ resolveContainers (some "lxc-info version 3.0") none [] cgAllFail
        [(7, some ⟨"alice", ""⟩), (8, some ⟨"bob", ""⟩)] =
      [(7, some ⟨"alice", ""⟩), (8, some ⟨"bob", ""⟩)].map
        (fun p => (p.1, resolveOne (some "lxc-info version 3.0") none [] cgAllFail p.1 p.2)) :=
  ⟨Or.inl rfl,
   (c5_cgroup_failure_swallowed (some "lxc-info version 3.0") none [] cgAllFail
     [(7, some ⟨"alice", ""⟩), (8, some ⟨"bob", ""⟩)] 7 (some ⟨"alice", ""⟩) ""
     (Or.inl rfl)).1,
   (c5_cgroup_failure_swallowed (some "lxc-info version 3.0") none [] cgAllFail
     [(7, some ⟨"alice", ""⟩), (8, some ⟨"bob", ""⟩)] 7 (some ⟨"alice", ""⟩) ""
     (Or.inl rfl)).2⟩

/-- C6: a compute-process entry whose pid field carries the unsupported
marker is blanked — `user`, `comm`, `pid`, `used_memory` all set to
`None` — and is kept in the output sequence (`.ok (some _)`, never
removed), so the raw process-entry count includes it. -/
theorem c6_marker_pid_blanked_kept (pm : PidMap) (e : Entry) (s : String)
    (hp : alGet e "pid" = some (some s))
    (hm : strContains s "Not Supported" = true) :
    step3_one pm e =
      .ok (some (alSet (alSet (alSet (alSet e "user" none) "comm" none) "pid" none)
        "used_memory" none)) := by
  simp [step3_one, hp, hm]

/-- C6 witness: Scenario D, `GPU-aaa, Not Supported, Not Supported`:
the parser yields exactly one entry, the theorem blanks and keeps it,
and the step-3 output count is 1. -/
theorem c6_marker_pid_blanked_kept_witness :
    parse_proc_entries "GPU-aaa, Not Supported, Not Supported" = [entryD]
    ∧ alGet entryD "pid" = some (some "Not Supported")
    ∧ strContains "Not Supported" "Not Supported" = true
    ∧ step3_one [] entryD =
        .ok (some [("gpu_uuid", some "GPU-aaa"), ("pid", none), ("used_memory", none),
          ("user", none), ("comm", none)])
    ∧ step3 [] [entryD] =
        .ok [[("gpu_uuid", some "GPU-aaa"), ("pid", none), ("used_memory", none),
          ("user", none), ("comm", none)]] := by
  refine ⟨rfl, rfl, rfl, ?_, rfl⟩
  have h := c6_marker_pid_blanked_kept [] entryD "Not Supported" rfl rfl
  rw [h]; rfl

/-- C7: for every device-query line with at least five comma-separated
fields (so that the `utilization.gpu` read succeeds), construction
succeeds and every field whose trimmed text contains the
`"Not Supported"` marker is set to the explicit absent value, after
which an absent utilization — and only the utilization — is replaced by
the `"??"` display placeholder; every other absent field stays `none`. -/
theorem c7_marker_normalization (line : String)
    (h5 : 5 ≤ (pySplitOnChar line ',').length) :
    mkGPUStat (parse_gpu_line line) =
      .ok ⟨(parse_gpu_line line).map (fun kv =>
        (kv.1, if strContains kv.2 "Not Supported" then
            (if kv.1 = "utilization.gpu" then some "??" else none)
          else some kv.2)), []⟩ := by
  unfold parse_gpu_line
  generalize hg : (pySplitOnChar line ',').map pyStrip = rs
  have h5r : 5 ≤ rs.length := by rw [← hg]; simpa using h5
  clear hg h5
  rcases rs with _ | ⟨a, _ | ⟨b, _ | ⟨c, _ | ⟨d, _ | ⟨e, rest⟩⟩⟩⟩⟩
  · simp at h5r
  · simp at h5r
  · simp at h5r
  · simp at h5r
  · simp at h5r
  clear h5r
  rcases rest with _ | ⟨f, _ | ⟨g2, t⟩⟩ <;>
    cases hm : strContains e "Not Supported" <;>
    simp [mkGPUStat, gpu_query_columns, alGet, markerNormalize, hm]

/-- C7 witness: Scenario B, where temperature and utilization carry the
marker: the normalized record holds an absent temperature and the
utilization placeholder, every other field kept verbatim. -/
theorem c7_marker_normalization_witness :
    5 ≤ (pySplitOnChar "0, GPU-aaa, Tesla K80, Not Supported, Not Supported, 0, 12000" ',').length
    ∧ mkGPUStat (parse_gpu_line "0, GPU-aaa, Tesla K80, Not Supported, Not Supported, 0, 12000") =
      .ok ⟨(parse_gpu_line "0, GPU-aaa, Tesla K80, Not Supported, Not Supported, 0, 12000").map
        (fun kv =>
          (kv.1, if strContains kv.2 "Not Supported" then
              (if kv.1 = "utilization.gpu" then some "??" else none)
            else some kv.2)), []⟩ :=
  ⟨by decide,
   c7_marker_normalization "0, GPU-aaa, Tesla K80, Not Supported, Not Supported, 0, 12000"
     (by decide)⟩

/-- C8 counterexample: the claim states escalation exactly when the
temperature is above 50 (respectively the utilization above 30); at the
boundary values the code escalates (the source tests `>= 50` and
`>= 30`), so the biconditional fails at 50 and at 30. -/
theorem c8_counterexample :
    ¬((ctemp_color 50 = ANSIColors.BOLD_RED) ↔ (50 : Int) > 50)
    ∧ ¬((cutil_color 30 = ANSIColors.BOLD_GREEN) ↔ (30 : Int) > 30) := by
  constructor <;> decide

/-- C8 amended: the temperature is rendered with the escalated color
exactly when it is at least 50 (normal color exactly below 50), and the
utilization with the escalated color exactly when it is at least 30
(normal color exactly below 30) — these are the color choices `print_to`
uses for its numeric fields. -/
theorem c8_threshold_colors (t u : Int) :
    ((ctemp_color t = ANSIColors.BOLD_RED) ↔ 50 ≤ t)
    ∧ ((ctemp_color t = ANSIColors.RED) ↔ t < 50)
    ∧ ((cutil_color u = ANSIColors.BOLD_GREEN) ↔ 30 ≤ u)
    ∧ ((cutil_color u = ANSIColors.GREEN) ↔ u < 30) := by
  refine ⟨?_, ?_, ?_, ?_⟩
  · by_cases h : 50 ≤ t <;>
      simp [ctemp_color, h, show ANSIColors.RED ≠ ANSIColors.BOLD_RED from by decide]
  · by_cases h : 50 ≤ t <;>
      simp [ctemp_color, h, show ANSIColors.BOLD_RED ≠ ANSIColors.RED from by decide] <;>
      omega
  · by_cases h : 30 ≤ u <;>
      simp [cutil_color, h, show ANSIColors.GREEN ≠ ANSIColors.BOLD_GREEN from by decide]
  · by_cases h : 30 ≤ u <;>
      simp [cutil_color, h, show ANSIColors.BOLD_GREEN ≠ ANSIColors.GREEN from by decide] <;>
      omega

/-- C9: device parsing is a deterministic pure function of the input
text — the embedding of `new_query`'s parsing loop is a function, so two
parses of the same text are structurally identical, in the same order. -/
theorem c9_parse_deterministic (t : String) : parse_devices t = parse_devices t := rfl

/-- C10: a non-empty device line with fewer than five comma-separated
fields zips into a field dict lacking the `utilization.gpu` key, and the
constructor's unconditional read of that key raises an uncaught
`KeyError` instead of producing a record. -/
theorem c10_short_line_keyerror (line : String) (hne : line ≠ "")
    (h5 : (pySplitOnChar line ',').length < 5) :
    mkGPUStat (parse_gpu_line line) = .error "KeyError: utilization.gpu" := by
  unfold parse_gpu_line
  generalize hg : (pySplitOnChar line ',').map pyStrip = rs
  have h5r : rs.length < 5 := by rw [← hg]; simpa using h5
  clear hg hne
  rcases rs with _ | ⟨a, _ | ⟨b, _ | ⟨c, _ | ⟨d, rest⟩⟩⟩⟩
  · rfl
  · rfl
  · rfl
  · rfl
  · rcases rest with _ | ⟨e, rest⟩
    · rfl
    · exfalso; simp at h5r; omega

/-! ### Helper lemmas: the pid map never stores a null identity -/

/-- Dict lookup in an all-non-null map never yields a stored `none`. -/
theorem alGet_AllSome {pm : PidMap} {n : Int} (h : AllSome pm) : alGet pm n ≠ some none := by
  intro hg
  unfold alGet at hg
  rcases hf : pm.find? (fun kv => decide (kv.1 = n)) with _ | kv0
  · rw [hf] at hg; simp at hg
  · rw [hf] at hg
    simp at hg
    exact h kv0 (List.mem_of_find?_eq_some hf) hg

/-- Dict assignment with a non-null value preserves the invariant. -/
theorem AllSome_alSet {pm : PidMap} {k : Int} {v : Option PInfo}
    (h : AllSome pm) (hv : v ≠ none) : AllSome (alSet pm k v) := by
  intro kv hkv
  unfold alSet at hkv
  split at hkv
  · obtain ⟨kv0, hkv0, rfl⟩ := List.mem_map.mp hkv
    by_cases hk : kv0.1 = k
    · simpa [hk] using hv
    · simpa [hk] using h kv0 hkv0
  · rcases List.mem_append.mp hkv with hmem | hmem
    · exact h kv hmem
    · obtain rfl := List.mem_singleton.mp hmem
      exact hv

/-- The `pid_map` comprehension only stores non-null identities. -/
theorem AllSome_build_aux {es : List Entry} :
    ∀ {acc pm : PidMap}, AllSome acc → build_pid_map_aux acc es = .ok pm → AllSome pm := by
  induction es with
  | nil =>
    intro acc pm h hb
    unfold build_pid_map_aux at hb
    injection hb with hb
    exact hb ▸ h
  | cons e rest ih =>
    intro acc pm h hb
    unfold build_pid_map_aux at hb
    split at hb
    · simp at hb
    · simp at hb
    · split at hb
      · exact ih h hb
      · split at hb
        · simp at hb
        · exact ih (AllSome_alSet h (by simp)) hb

/-- `build_pid_map` yields an all-non-null map. -/
theorem AllSome_build {es : List Entry} {pm : PidMap}
    (hb : build_pid_map es = .ok pm) : AllSome pm :=
  AllSome_build_aux (fun kv hkv => by simp at hkv) hb

/-- The OS-listing pass only overwrites with non-null identities. -/
theorem AllSome_ps_aux {ls : List String} :
    ∀ {pm pm2 : PidMap}, AllSome pm → ps_update_aux pm ls = .ok pm2 → AllSome pm2 := by
  induction ls with
  | nil =>
    intro pm pm2 h hb
    unfold ps_update_aux at hb
    injection hb with hb
    exact hb ▸ h
  | cons line rest ih =>
    intro pm pm2 h hb
    unfold ps_update_aux at hb
    split at hb
    · exact ih h hb
    · split at hb
      · split at hb
        · simp at hb
        · exact ih (AllSome_alSet h (by simp)) hb
      · simp at hb

/-- The whole `ps` stage preserves the invariant. -/
theorem AllSome_ps_stage {w : World} {pm0 pm1 : PidMap}
    (h : AllSome pm0) (hps : ps_stage w pm0 = .ok pm1) : AllSome pm1 := by
  unfold ps_stage at hps
  split at hps
  · injection hps with hps; exact hps ▸ h
  · split at hps
    · simp at hps
    · exact AllSome_ps_aux h hps

/-- Per-pid container resolution never nullifies a stored identity. -/
theorem resolveOne_ne_none {lxc docker : Option String}
    {dd : List (String × String × String)} {cg : Int → Except Unit String}
    {k : Int} {v : Option PInfo} (hv : v ≠ none) :
    resolveOne lxc docker dd cg k v ≠ none := by
  unfold resolveOne
  rcases v with _ | pi
  · exact absurd rfl hv
  · rcases hcg : cg k with e | info
    · simp
    · dsimp only
      rcases hf : cg_fields info with _ | ⟨a, _ | ⟨b, _ | ⟨c, _ | ⟨d, t⟩⟩⟩⟩
      · simp
      · simp
      · simp
      · dsimp only
        split
        · simp
        · split
          · rcases alGet dd (container_tail c) with _ | nc <;> simp
          · simp
      · simp

/-- The container-resolution loop preserves the invariant. -/
theorem AllSome_resolve {lxc docker : Option String}
    {dd : List (String × String × String)} {cg : Int → Except Unit String}
    {pm : PidMap} (h : AllSome pm) :
    AllSome (resolveContainers lxc docker dd cg pm) := by
  intro kv hkv
  obtain ⟨kv0, hkv0, rfl⟩ := List.mem_map.mp hkv
  exact resolveOne_ne_none (h kv0 hkv0)

/-- With an all-non-null pid map, step 3 never takes its removal branch. -/
theorem step3_one_ne_ok_none {pm : PidMap} {e : Entry} (h : AllSome pm) :
    step3_one pm e ≠ .ok none := by
  unfold step3_one
  split
  · simp
  · simp
  · split
    · simp
    · split
      · simp
      · split
        · simp
        · next hg => exact absurd hg (alGet_AllSome h)
        · simp

/-- With an all-non-null pid map, step 3 drops no entry: the output is
exactly as long as its input entry list. -/
theorem step3_length {pm : PidMap} (h : AllSome pm) :
    ∀ {es : List Entry} {out : List Entry}, step3 pm es = .ok out → out.length = es.length := by
  intro es
  induction es with
  | nil =>
    intro out hs
    unfold step3 at hs
    injection hs with hs
    simp [← hs]
  | cons e rest ih =>
    intro out hs
    unfold step3 at hs
    split at hs
    · simp at hs
    · next r hr =>
      split at hs
      · simp at hs
      · next rs hrs =>
        have hlen := ih hrs
        rcases r with _ | e2
        · exact absurd hr (step3_one_ne_ok_none h)
        · injection hs with hs
          simp [← hs, hlen]

/-- C2 amended: a compute-process entry whose pid has no line in the OS
process-listing output is NOT dropped: it is kept with the default
identity (`user = UNKNOWN`, empty command), because every pid in
`pid_map` is initialized to a non-null identity and the listing only
overwrites values — so whenever `running_processes` succeeds its result
has exactly one entry per non-empty compute-process line, marker rows
included. -/
theorem c2_no_entry_dropped (w : World) (t : String) (out : List Entry)
    (hq : w.proc_query = .ok t)
    (hok : running_processes w = .ok out) :
    out.length = (parse_proc_entries t).length := by
  unfold running_processes at hok
  rw [hq] at hok
  dsimp only at hok
  rcases hb : build_pid_map (parse_proc_entries t) with e | pm0
  · rw [hb] at hok; simp at hok
  · rw [hb] at hok
    dsimp only at hok
    rcases hps2 : ps_stage w pm0 with e | pm1
    · rw [hps2] at hok; simp at hok
    · rw [hps2] at hok
      dsimp only at hok
      rcases hd : docker_stage w with e | dinfo
      · rw [hd] at hok; simp at hok
      · rw [hd] at hok
        dsimp only at hok
        have h1 : AllSome pm1 := AllSome_ps_stage (AllSome_build hb) hps2
        have h2 : AllSome (if isTruthy w.lxc_version || isTruthy w.docker_version then
            resolveContainers w.lxc_version w.docker_version dinfo w.cgroup pm1
          else pm1) := by
          split
          · exact AllSome_resolve h1
          · exact h1
        exact step3_length h2 hok

/-- C2 amended witness: in `worldPsMissing` the OS listing has no line
for pid 1234, `running_processes` succeeds, and its output still counts
one entry per parsed compute-process line. -/
theorem c2_no_entry_dropped_witness :
    worldPsMissing.proc_query = .ok "GPU-aaa, 1234, 256"
    ∧ running_processes worldPsMissing =
        .ok [[("gpu_uuid", some "GPU-aaa"), ("pid", some "1234"), ("used_memory", some "256"),
          ("user", some "UNKNOWN"), ("comm", some "")]]
    ∧ ([[("gpu_uuid", some "GPU-aaa"), ("pid", some "1234"), ("used_memory", some "256"),
          ("user", some "UNKNOWN"), ("comm", some "")]] : List Entry).length =
        (parse_proc_entries "GPU-aaa, 1234, 256").length :=
  ⟨rfl, rfl, c2_no_entry_dropped worldPsMissing "GPU-aaa, 1234, 256" _ rfl rfl⟩

/-- C4 amended: the propagation policy of the code is narrower than
claimed: only the two version probes and the per-pid cgroup lookups are
best-effort.  Part one: when docker is detected and the container
listing command fails, the whole process collection — and with it the
snapshot — fails with that error, even though the device query
succeeded.  Part two: when neither runtime is detected, the container
listing and the cgroup lookups are genuinely absorbed: the result does
not depend on them at all. -/
theorem c4_propagation :
    (∀ (w : World) (t msg : String) (pm0 pm1 : PidMap),
      w.proc_query = .ok t →
      build_pid_map (parse_proc_entries t) = .ok pm0 →
      ps_stage w pm0 = .ok pm1 →
      isTruthy w.docker_version = true →
      w.docker_ps = .error msg →
      running_processes w = .error msg)
    ∧ (∀ (w : World) (d : Except String String) (c : Int → Except Unit String),
      w.lxc_version = none → w.docker_version = none →
      running_processes w = running_processes { w with docker_ps := d, cgroup := c }) := by
  constructor
  · intro w t msg pm0 pm1 hq hb hps hdv hdp
    unfold running_processes
    rw [hq]
    simp only [hb, hps, docker_stage, hdv, hdp, if_true]
  · intro w d c hl hdv
    unfold running_processes ps_stage docker_stage
    simp [hl, hdv, isTruthy]

/-- C4 amended witness: instantiating part one at `worldDockerPsFails`
and part two at `worldPsMissing`. -/
theorem c4_propagation_witness :
    running_processes worldDockerPsFails = .error "CalledProcessError: docker ps"
    ∧ running_processes worldPsMissing =
        running_processes
          { worldPsMissing with docker_ps := .error "other", cgroup := fun _ => .ok "x" } :=
  ⟨c4_propagation.1 worldDockerPsFails "GPU-aaa, 1234, 256" "CalledProcessError: docker ps"
      [(1234, some ⟨"UNKNOWN", ""⟩)] [(1234, some ⟨"alice", "python"⟩)] rfl rfl rfl rfl rfl,
   c4_propagation.2 worldPsMissing (.error "other") (fun _ => .ok "x") rfl rfl⟩

/-- C10 witness: the three-field line `0, GPU-aaa, Tesla K80` is
non-empty, has fewer than five fields, and makes construction fail with
the `KeyError`. -/
theorem c10_short_line_keyerror_witness :
    ("0, GPU-aaa, Tesla K80" ≠ "")
    ∧ (pySplitOnChar "0, GPU-aaa, Tesla K80" ',').length < 5
    ∧ mkGPUStat (parse_gpu_line "0, GPU-aaa, Tesla K80") = .error "KeyError: utilization.gpu" :=
  ⟨by decide, by decide, c10_short_line_keyerror "0, GPU-aaa, Tesla K80" (by decide) (by decide)⟩

end Gpustat
